import Mathlib

/-!
# Wellness-Forever pharmacy app: verification of spec claims

Shallow embedding of the data-access layer (`src/utils/supabase/client.tsx`),
the remote HTTP handlers (`src/supabase/functions/server/index.tsx`), the
field validators (`src/utils/validation.ts`) and the sale-total computation
(`src/components/SalesBilling.tsx`), with theorems settling the spec claims.

Conventions of the embedding:
* JS numbers are modelled as `ℚ` where fractional values can reach the code
  (prices, stock quantities passed unvalidated to the local fallback) and as
  `Int`/`Nat` where the code guarantees integrality.
* `undefined`/absent optional fields are `Option`.
* Fallible handlers return `Except String _` mirroring the HTTP error body.
* The browser local store (`LocalStorageManager.data`) is a structure of
  per-entity lists; the remote Postgres tables are lists of row structures.
-/

namespace Wellness

/-! ## Validator (`src/utils/validation.ts`) -/

/-- `{isValid, errors}` result shape returned by every validator. -/
structure ValidationResult where
  isValid : Bool
  errors : List String
deriving Repr, DecidableEq

/-- A character counts as whitespace for the `\s` class of the JS regexes. -/
def isWsChar (c : Char) : Bool :=
  c = ' ' || c = '\t' || c = '\n' || c = '\r' || c = '\x0b' || c = '\x0c'

/-- A character admissible in the `[^\s@]` class of the email regex. -/
def emailOkChar (c : Char) : Bool :=
  !(isWsChar c) && c != '@'

/-- JS `String.prototype.trim`: strip whitespace from both ends. -/
def jsTrimList (cs : List Char) : List Char :=
  ((cs.dropWhile isWsChar).reverse.dropWhile isWsChar).reverse

/-- `s.trim()` as a string operation. -/
def jsTrim (s : String) : String := ⟨jsTrimList s.data⟩

/-- Split a character list at every occurrence of `sep`
(`String.prototype.split` / the `@`-decomposition of the email regex). -/
def splitChar (sep : Char) : List Char → List (List Char)
  | [] => [[]]
  | c :: cs =>
      match splitChar sep cs with
      | [] => [[]]
      | p :: ps => if c = sep then [] :: p :: ps else (c :: p) :: ps

/-- The domain part matches `[^\s@]+\.[^\s@]+`: some `.` occurs at an
interior position (at least one character before and after it). -/
def domainHasInteriorDot (cs : List Char) : Bool :=
  (List.range cs.length).any fun p =>
    decide (0 < p) && decide (p + 1 < cs.length) && (cs.getD p ' ' = '.')

/-- `Validator.validateEmail`: tests `/^[^\s@]+@[^\s@]+\.[^\s@]+$/`.
The anchored pattern forces exactly one `@`; the local part is a nonempty
run of `[^\s@]`, and the domain is a nonempty `[^\s@]` run containing a
dot with at least one character on each side. -/
def validateEmail (s : String) : Bool :=
  match splitChar '@' s.data with
  | [localPart, domain] =>
      !localPart.isEmpty && localPart.all emailOkChar &&
      !domain.isEmpty && domain.all emailOkChar &&
      domainHasInteriorDot domain
  | _ => false

/-- Input field bag for `Validator.validateMedicine`. Numeric fields are `ℚ`
because the TS interface types them as JS numbers; `none` models an
`undefined` field. -/
structure MedicineData where
  name : Option String := none
  category : Option String := none
  strength : Option String := none
  manufacturer : Option String := none
  stock : Option ℚ := none
  minStock : Option ℚ := none
  maxStock : Option ℚ := none
  price : Option ℚ := none
  expiryDate : Option String := none
  batchNumber : Option String := none
  location : Option String := none
deriving Repr, DecidableEq

/-- JS truthiness of an optional string: absent or empty is falsy. -/
def strFalsy : Option String → Bool
  | none => true
  | some s => s = ""

/-- `!x || x.trim().length < 2` for a required string field. -/
def missingOrShort (x : Option String) (n : Nat) : Bool :=
  match x with
  | none => true
  | some s => (jsTrim s).length < n

/-- `Number.isInteger` on a rational. -/
def isIntegerQ (q : ℚ) : Bool := q.den = 1

/-- `Validator.validateDate`: `new Date(s)` parses to a non-NaN time.
The claims never exercise the date branches with a concrete malformed date,
so the embedding keeps the parseability test abstract as a parameter. -/
def validateDateWith (parses : String → Bool) (s : String) : Bool := parses s

/-- `Validator.validateMedicine`, with the date-parsing and date-comparison
primitives passed in (the JS code consults the runtime clock for the
expiry-in-future rule). `errors` accumulates in source order. -/
def validateMedicine (parses : String → Bool) (inFuture : String → Bool)
    (d : MedicineData) : ValidationResult :=
  let e1 := if missingOrShort d.name 2 then ["Medicine name must be at least 2 characters long"] else []
  let e2 := if missingOrShort d.category 2 then ["Category must be at least 2 characters long"] else []
  let e3 := if missingOrShort d.manufacturer 2 then ["Manufacturer must be at least 2 characters long"] else []
  let e4 := match d.stock with
    | some v => if v < 0 ∨ ¬ isIntegerQ v then ["Stock must be a non-negative integer"] else []
    | none => []
  let e5 := match d.minStock with
    | some v => if v < 0 ∨ ¬ isIntegerQ v then ["Minimum stock must be a non-negative integer"] else []
    | none => []
  let e6 := match d.maxStock with
    | some v => if v < 0 ∨ ¬ isIntegerQ v then ["Maximum stock must be a non-negative integer"] else []
    | none => []
  let e7 := match d.minStock, d.maxStock with
    | some lo, some hi => if lo ≥ hi then ["Maximum stock must be greater than minimum stock"] else []
    | _, _ => []
  let e8 := match d.price with
    | some v => if v < 0 then ["Price must be a non-negative number"] else []
    | none => []
  let e9 := if !(strFalsy d.expiryDate) ∧ ¬ validateDateWith parses ((d.expiryDate).getD "") then
      ["Invalid expiry date format"] else []
  let e10 := if !(strFalsy d.expiryDate) ∧ ¬ inFuture ((d.expiryDate).getD "") then
      ["Expiry date must be in the future"] else []
  let e11 := match d.batchNumber with
    | some s => if s ≠ "" ∧ (jsTrim s).length < 3 then ["Batch number must be at least 3 characters long"] else []
    | none => []
  let errors := e1 ++ e2 ++ e3 ++ e4 ++ e5 ++ e6 ++ e7 ++ e8 ++ e9 ++ e10 ++ e11
  { isValid := errors.isEmpty, errors := errors }

/-- Input field bag for `Validator.validatePrescription`. -/
structure PrescriptionData where
  patientName : Option String := none
  patientAge : Option ℚ := none
  doctorName : Option String := none
  medicines : Option (List String) := none
deriving Repr, DecidableEq

/-- `Validator.validatePrescription`. -/
def validatePrescription (d : PrescriptionData) : ValidationResult :=
  let e1 := if missingOrShort d.patientName 2 then ["Patient name must be at least 2 characters long"] else []
  let e2 := if missingOrShort d.doctorName 2 then ["Doctor name must be at least 2 characters long"] else []
  let e3 := match d.patientAge with
    | some v => if v < 0 ∨ v > 150 ∨ ¬ isIntegerQ v then
        ["Patient age must be a valid integer between 0 and 150"] else []
    | none => []
  let e4 := match d.medicines with
    | none => ["At least one medicine must be prescribed"]
    | some ms => if ms.isEmpty then ["At least one medicine must be prescribed"] else []
  let e5 := match d.medicines with
    | none => []
    | some ms =>
        (List.range ms.length).flatMap fun i =>
          let m := ms.getD i ""
          if m = "" ∨ (jsTrim m).length < 2 then
            [s!"Medicine {i + 1} must be at least 2 characters long"] else []
  let errors := e1 ++ e2 ++ e3 ++ e4 ++ e5
  { isValid := errors.isEmpty, errors := errors }

/-- Input field bag for `Validator.validateEmployee`. Phone validation calls
`validatePhone`, kept abstract via a parameter-free faithful model below. -/
structure EmployeeData where
  name : Option String := none
  email : Option String := none
  phone : Option String := none
  role : Option String := none
  department : Option String := none
  salary : Option ℚ := none
  hireDate : Option String := none
deriving Repr, DecidableEq

/-- `Validator.validatePhone`: strips `[\s\-\(\)]` then tests
`/^[\+]?[1-9][\d]{0,15}$/`. -/
def validatePhone (s : String) : Bool :=
  let cs := s.data.filter fun c =>
    !(isWsChar c || c = '-' || c = '(' || c = ')')
  let body := match cs with
    | '+' :: rest => rest
    | rest => rest
  match body with
  | [] => false
  | c :: rest =>
      ('1' ≤ c && c ≤ '9') && rest.length ≤ 15 && rest.all Char.isDigit

/-- `Validator.validateEmployee`, with the hire-date parseability test
abstract. -/
def validateEmployee (parses : String → Bool) (d : EmployeeData) : ValidationResult :=
  let e1 := if missingOrShort d.name 2 then ["Employee name must be at least 2 characters long"] else []
  let e2 := if strFalsy d.email ∨ ¬ validateEmail ((d.email).getD "") then
      ["Valid email address is required"] else []
  let e3 := if !(strFalsy d.phone) ∧ ¬ validatePhone ((d.phone).getD "") then
      ["Invalid phone number format"] else []
  let e4 := if missingOrShort d.role 2 then ["Role must be at least 2 characters long"] else []
  let e5 := if missingOrShort d.department 2 then ["Department must be at least 2 characters long"] else []
  let e6 := match d.salary with
    | some v => if v < 0 then ["Salary must be a non-negative number"] else []
    | none => []
  let e7 := if !(strFalsy d.hireDate) ∧ ¬ validateDateWith parses ((d.hireDate).getD "") then
      ["Invalid hire date format"] else []
  let errors := e1 ++ e2 ++ e3 ++ e4 ++ e5 ++ e6 ++ e7
  { isValid := errors.isEmpty, errors := errors }

/-! ## Local storage layer (`LocalStorageManager` in `client.tsx`) -/

/-- A medicine record held in the browser-local store: the submitted field
bag spread together with the system-assigned `id` and timestamps
(`{id, ...medicine, createdAt, updatedAt}` in `addMedicine`).

JS would propagate `NaN` if arithmetic touched an absent `stock`; every
theorem below that mutates stock hypothesises the field is present. -/
structure StoredMedicine where
  id : String
  fields : MedicineData
  createdAt : String
  updatedAt : String
deriving Repr, DecidableEq

/-- A sale line item as held in the cart (`SalesBilling.tsx`) and copied
verbatim into the sale's `items` array. -/
structure CartItem where
  medicineId : String
  name : String
  quantity : ℚ
  price : ℚ
  stock : ℚ
deriving Repr, DecidableEq

/-- A sale record as built by `createSale`. -/
structure Sale where
  id : String
  customerName : Option String := none
  customerPhone : Option String := none
  items : List CartItem := []
  total : ℚ := 0
  paymentMethod : String := "cash"
  timestamp : String := ""
deriving Repr, DecidableEq

/-- A prescription record in the local store (only the fields the status
operations touch are modelled in full; the rest ride along untouched). -/
structure Prescription where
  id : String
  patientName : String := ""
  status : String := "pending"
  verification : Option (String × Bool) := none
  updatedAt : String := ""
deriving Repr, DecidableEq

/-- A help-desk ticket record in the local store. -/
structure Ticket where
  id : String
  title : String := ""
  status : String := "open"
  updatedAt : String := ""
deriving Repr, DecidableEq

/-- The JSON blob behind `LocalStorageManager.data`: one array per entity. -/
structure PharmacyStore where
  medicines : List StoredMedicine := []
  sales : List Sale := []
  prescriptions : List Prescription := []
  tickets : List Ticket := []
deriving Repr, DecidableEq

/-- `LocalStorageManager.update(key, id, updates)`: `findIndex` on `id`,
merge the updates into the first matching element, return the merged
element; `null` (here `none`) and an unchanged array when no element
matches. The merge `{...item, ...updates}` is the supplied `f`. -/
def localUpdate (getId : α → String) (id : String) (f : α → α) :
    List α → List α × Option α
  | [] => ([], none)
  | x :: xs =>
      if getId x = id then (f x :: xs, some (f x))
      else
        let r := localUpdate getId id f xs
        (x :: r.1, r.2)

/-- `LocalStorageManager.add(key, item)`: `push` appends. -/
def localAdd (l : List α) (item : α) : List α := l ++ [item]

/-- `LocalStorageManager.delete(key, id)`: keep the items whose id differs. -/
def localDelete (getId : α → String) (id : String) (l : List α) : List α :=
  l.filter fun x => getId x ≠ id

/-! ## PharmacyAPI local fallbacks (`catch` branches in `client.tsx`) -/

/-- Fallback of `getMedicines`: return the stored array. -/
def getMedicinesLocal (store : PharmacyStore) : List StoredMedicine :=
  store.medicines

/-- Fallback of `addMedicine`: append `{id, ...medicine, createdAt,
updatedAt}` and return it. -/
def addMedicineLocal (store : PharmacyStore) (newId now : String)
    (medicine : MedicineData) : PharmacyStore × StoredMedicine :=
  let newMedicine : StoredMedicine :=
    { id := newId, fields := medicine, createdAt := now, updatedAt := now }
  ({ store with medicines := localAdd store.medicines newMedicine }, newMedicine)

/-- Fallback of `updateMedicine`: merge the updates (with a fresh
`updatedAt`) into the first matching record; `medicine` is `null` when the
id is unknown. -/
def updateMedicineLocal (store : PharmacyStore) (id now : String)
    (updates : MedicineData → MedicineData) :
    PharmacyStore × Option StoredMedicine :=
  let r := localUpdate (·.id) id
    (fun m => { m with fields := updates m.fields, updatedAt := now })
    store.medicines
  ({ store with medicines := r.1 }, r.2)

/-- Fallback of `deleteMedicine`: hard removal, then `{success: true}`. -/
def deleteMedicineLocal (store : PharmacyStore) (id : String) : PharmacyStore :=
  { store with medicines := localDelete (·.id) id store.medicines }

/-- The update payload `{stock: Math.max(0, newStock), updatedAt: now}` of
the `updateStock` fallback, as a merge on a stored medicine. -/
def localStockMerge (newStock : ℚ) (now : String) (x : StoredMedicine) :
    StoredMedicine :=
  { x with fields := { x.fields with stock := some (max 0 newStock) },
           updatedAt := now }

/-- Fallback of `updateStock`: find the medicine, apply the raw signed
quantity with no validation, clamp at zero; throw `Medicine not found`
when the id is absent. -/
def updateStockLocal (store : PharmacyStore) (id : String) (quantity : ℚ)
    (type : String) (now : String) :
    Except String (PharmacyStore × Option StoredMedicine) :=
  match store.medicines.find? (fun m => m.id = id) with
  | some medicine =>
      let newStock :=
        if type = "add" then (medicine.fields.stock).getD 0 + quantity
        else (medicine.fields.stock).getD 0 - quantity
      let r := localUpdate (·.id) id (localStockMerge newStock now)
        store.medicines
      .ok ({ store with medicines := r.1 }, r.2)
  | none => .error "Medicine not found"

/-- Fallback of `createSale`: append the sale; no stock is touched. -/
def createSaleLocal (store : PharmacyStore) (newSale : Sale) :
    PharmacyStore × Sale :=
  ({ store with sales := localAdd store.sales newSale }, newSale)

/-- Fallback of `updatePrescriptionStatus`: merge `{status, updatedAt}`. -/
def updatePrescriptionStatusLocal (store : PharmacyStore) (id status now : String) :
    PharmacyStore × Option Prescription :=
  let r := localUpdate (·.id) id
    (fun p => { p with status := status, updatedAt := now })
    store.prescriptions
  ({ store with prescriptions := r.1 }, r.2)

/-- Fallback of `verifyPrescription`: merge the verification payload and
set the status from `approved`. -/
def verifyPrescriptionLocal (store : PharmacyStore) (id : String)
    (notes : String) (approved : Bool) (now : String) :
    PharmacyStore × Option Prescription :=
  let r := localUpdate (·.id) id
    (fun p => { p with
                verification := some (notes, approved),
                status := if approved then "verified" else "rejected",
                updatedAt := now })
    store.prescriptions
  ({ store with prescriptions := r.1 }, r.2)

/-- Fallback of `updateTicketStatus`: merge `{status, updatedAt}`. -/
def updateTicketStatusLocal (store : PharmacyStore) (id status now : String) :
    PharmacyStore × Option Ticket :=
  let r := localUpdate (·.id) id
    (fun t => { t with status := status, updatedAt := now })
    store.tickets
  ({ store with tickets := r.1 }, r.2)

/-! ## Remote handlers (`src/supabase/functions/server/index.tsx`) -/

/-- A row of the `meds` table (simplified schema). The JS arithmetic on
`stock` is over numbers, modelled as `ℚ`. -/
structure MedRow where
  id : String
  name : String
  cat : String
  strength : Option String := none
  mfg : String
  stock : ℚ := 0
  min_stock : ℚ := 10
  max_stock : ℚ := 100
  price : ℚ := 0
  exp_date : Option String := none
  batch : Option String := none
  location : Option String := none
  active : Bool := true
  created : String := ""
  updated : String := ""
deriving Repr, DecidableEq

/-- The camelCase↔snake_case transform applied by the handlers when
returning a `meds` row to the frontend. -/
structure TransformedMedicine where
  id : String
  name : String
  category : String
  strength : Option String
  manufacturer : String
  current_stock : ℚ
  minimum_stock : ℚ
  maximum_stock : ℚ
  unit_price : ℚ
  expiry_date : Option String
  batch_number : Option String
  storage_location : Option String
  is_active : Bool
  created_at : String
  updated_at : String
deriving Repr, DecidableEq

/-- Field renaming used by every medicine handler's response. -/
def transformMed (r : MedRow) : TransformedMedicine :=
  { id := r.id, name := r.name, category := r.cat, strength := r.strength,
    manufacturer := r.mfg, current_stock := r.stock,
    minimum_stock := r.min_stock, maximum_stock := r.max_stock,
    unit_price := r.price, expiry_date := r.exp_date,
    batch_number := r.batch, storage_location := r.location,
    is_active := r.active, created_at := r.created, updated_at := r.updated }

/-- JS `parseInt` on a number: truncation toward zero
(T-division of the numerator by the denominator). -/
def jsTrunc (q : ℚ) : ℤ := q.num.tdiv q.den

/-- `parseInt(x) || parseInt(missing) || d` where `x` is the submitted
numeric field: an absent field or a falsy (zero) parse falls through to
the default. -/
def parseIntOr (x : Option ℚ) (d : ℚ) : ℚ :=
  match x with
  | none => d
  | some q => if jsTrunc q = 0 then d else (jsTrunc q : ℚ)

/-- `parseFloat(x) || parseFloat(missing) || d`. -/
def parseFloatOr (x : Option ℚ) (d : ℚ) : ℚ :=
  match x with
  | none => d
  | some q => if q = 0 then d else q

/-- `x?.trim() || null`: absent, or trimmed with empty collapsing to null. -/
def optTrimOrNull : Option String → Option String
  | none => none
  | some s => if jsTrim s = "" then none else some (jsTrim s)

/-- `x || null`: absent or empty collapses to null (no trim). -/
def optOrNull : Option String → Option String
  | none => none
  | some s => if s = "" then none else some s

/-- `GET /medicines`: rows with `active = true`, ordered by name, then
renamed for the frontend. The name ordering is an insertion sort, a
permutation of the filter — the claims below only consult membership. -/
def remoteGetMedicines (db : List MedRow) : List TransformedMedicine :=
  (((db.filter (·.active)).map transformMed).insertionSort
    fun a b => a.name ≤ b.name)

/-- The `meds` row `POST /medicines` builds from the request body: the
required strings trimmed, the numeric fields run through the
parse-or-default chains, optional strings trimmed with empty collapsing
to null, and `active` defaulting to true. -/
def medRowOf (newId now : String) (m : MedicineData) : MedRow :=
  { id := newId,
    name := jsTrim ((m.name).getD ""),
    cat := jsTrim ((m.category).getD ""),
    strength := optTrimOrNull m.strength,
    mfg := jsTrim ((m.manufacturer).getD ""),
    stock := parseIntOr m.stock 0,
    min_stock := parseIntOr m.minStock 10,
    max_stock := parseIntOr m.maxStock 100,
    price := parseFloatOr m.price 0,
    exp_date := optOrNull m.expiryDate,
    batch := optTrimOrNull m.batchNumber,
    location := optTrimOrNull m.location,
    active := true, created := now, updated := now }

/-- `POST /medicines`: validate the three required strings, build the row
with the parse-or-default chains, insert, return the transformed row. -/
def remoteAddMedicine (db : List MedRow) (newId now : String)
    (m : MedicineData) : Except String (List MedRow × TransformedMedicine) :=
  if missingOrShort m.name 2 then
    .error "Medicine name must be at least 2 characters long"
  else if missingOrShort m.category 2 then
    .error "Category must be at least 2 characters long"
  else if missingOrShort m.manufacturer 2 then
    .error "Manufacturer must be at least 2 characters long"
  else
    .ok (db ++ [medRowOf newId now m], transformMed (medRowOf newId now m))

/-- `DELETE /medicines/:id`: soft delete — set `active = false` on the
matching rows, nothing else. -/
def remoteDeleteMedicine (db : List MedRow) (id : String) : List MedRow :=
  db.map fun r => if r.id = id then { r with active := false } else r

/-- `POST /medicines/:id/stock`: validate quantity (truthy positive
integer) and type, fetch the single matching row (`.single()` fails unless
exactly one), reject when the new stock would be negative, else write it.
The response carries the transformed updated row. -/
def remoteUpdateStock (db : List MedRow) (id : String) (quantity : ℚ)
    (type : String) (now : String) :
    Except String (List MedRow × TransformedMedicine) :=
  if quantity ≤ 0 ∨ ¬ isIntegerQ quantity then
    .error "Quantity must be a positive integer"
  else if ¬ (type = "add" ∨ type = "subtract") then
    .error "Type must be 'add' or 'subtract'"
  else
    match db.filter (·.id = id) with
    | [medicine] =>
        let previousStock := medicine.stock
        let newStock :=
          if type = "add" then previousStock + quantity
          else previousStock - quantity
        if newStock < 0 then .error "Insufficient stock"
        else
          let db2 := db.map fun r =>
            if r.id = id then { r with stock := newStock, updated := now } else r
          .ok (db2, transformMed { medicine with stock := newStock, updated := now })
    | _ => .error "Medicine not found"

/-- One iteration of the `POST /sales` stock loop: fetch the single row
for the line's medicine (skipped silently on failure), subtract the line
quantity, and write back only when the result is non-negative. -/
def remoteSaleStockStep (db : List MedRow) (item : CartItem) : List MedRow :=
  match db.filter (·.id = item.medicineId) with
  | [medicine] =>
      let newStock := medicine.stock - item.quantity
      if newStock ≥ 0 then
        db.map fun r =>
          if r.id = item.medicineId then { r with stock := newStock } else r
      else db
  | _ => db

/-- The `meds`-table effect of `POST /sales`: the stock loop over the
sale's items (the `sales`/`sale_items` inserts do not touch `meds`). -/
def remoteCreateSaleStock (db : List MedRow) (items : List CartItem) :
    List MedRow :=
  items.foldl remoteSaleStockStep db

/-! ## Sale total (`SalesBilling.tsx` `calculateTotal`) -/

/-- `cart.reduce((total, item) => total + item.price * item.quantity, 0)`. -/
def calculateTotal (cart : List CartItem) : ℚ :=
  cart.foldl (fun total item => total + item.price * item.quantity) 0

/-! ## Stock-mutating operations (for the stock invariant) -/

/-- The combined system state: the remote `meds` table and the browser
local store. -/
structure SysState where
  db : List MedRow
  store : PharmacyStore

/-- The stock-mutating operations named by the invariant: the stock
add/subtract endpoint, sale creation, and their local fallbacks. -/
inductive StockOp where
  | remoteStockAdj (id : String) (quantity : ℚ) (type now : String)
  | localStockAdj (id : String) (quantity : ℚ) (type now : String)
  | remoteSale (items : List CartItem)
  | localSale (sale : Sale)

/-- Apply one operation; a rejected (error) call leaves the state as it
was, since the handlers only write on their success paths. -/
def applyOp (st : SysState) : StockOp → SysState
  | .remoteStockAdj id q type now =>
      match remoteUpdateStock st.db id q type now with
      | .ok (db2, _) => { st with db := db2 }
      | .error _ => st
  | .localStockAdj id q type now =>
      match updateStockLocal st.store id q type now with
      | .ok (s2, _) => { st with store := s2 }
      | .error _ => st
  | .remoteSale items => { st with db := remoteCreateSaleStock st.db items }
  | .localSale sale => { st with store := (createSaleLocal st.store sale).1 }

/-- Every stock in both stores is non-negative. -/
def StocksNonneg (st : SysState) : Prop :=
  (∀ r ∈ st.db, 0 ≤ r.stock) ∧
  (∀ m ∈ st.store.medicines, ∀ s : ℚ, m.fields.stock = some s → 0 ≤ s)

/-! ## Concrete sample data used by witnesses and counterexamples -/

/-- The first sample medicine of `client.tsx`, as a local-store record. -/
def sampleStored : StoredMedicine where
  id := "med_001"
  fields := { name := some "Paracetamol", category := some "Pain Relief",
              strength := some "500mg", manufacturer := some "PharmaCorp",
              stock := some 150, minStock := some 50, maxStock := some 300,
              price := some (599/100), expiryDate := some "2025-12-15",
              batchNumber := some "PC240815", location := some "A1-S2" }
  createdAt := "2025-01-08T10:00:00Z"
  updatedAt := "2025-01-08T10:00:00Z"

/-- The sample prescription of `client.tsx`. -/
def samplePresc : Prescription where
  id := "presc_001"
  patientName := "Jane Doe"
  status := "pending"
  updatedAt := "t0"

/-- A sample help-desk ticket. -/
def sampleTicket : Ticket where
  id := "tkt_001"
  title := "Printer broken"
  status := "open"
  updatedAt := "t0"

/-- A small local store with one record per entity. -/
def sampleStore : PharmacyStore :=
  { medicines := [sampleStored], prescriptions := [samplePresc],
    tickets := [sampleTicket] }

/-- The same medicine as a remote `meds` row. -/
def sampleRow : MedRow where
  id := "med_001"
  name := "Paracetamol"
  cat := "Pain Relief"
  strength := some "500mg"
  mfg := "PharmaCorp"
  stock := 150
  min_stock := 50
  max_stock := 300
  price := 599/100
  exp_date := some "2025-12-15"
  batch := some "PC240815"
  location := some "A1-S2"
  created := "t0"
  updated := "t0"

/-- A one-row remote `meds` table. -/
def sampleDb : List MedRow := [sampleRow]

/-- A combined sample system state. -/
def sampleSys : SysState := { db := sampleDb, store := sampleStore }

/-! Demo cart / sale data. -/

/-- First demo cart line: quantity 2 at price 5.00. -/
def demoItemA : CartItem :=
  { medicineId := "med_a", name := "Alpha", quantity := 2, price := 5,
    stock := 100 }

/-- Second demo cart line: quantity 3 at price 10.00. -/
def demoItemB : CartItem :=
  { medicineId := "med_b", name := "Beta", quantity := 3, price := 10,
    stock := 100 }

/-- The spec's sale scenario: two line items, quantities 2 and 3, unit
prices 5.00 and 10.00. -/
def demoCart : List CartItem := [demoItemA, demoItemB]

/-- A sale whose single line references the sample store's medicine
(counterexample input for the local-path stock reduction). -/
def c2sale : Sale :=
  { id := "sale_x",
    items := [{ medicineId := "med_001", name := "Paracetamol",
                quantity := 2, price := 6, stock := 150 }],
    total := 12, timestamp := "t1" }

/-- First demo remote row. -/
def demoRowA : MedRow :=
  { id := "med_a", name := "Alpha", cat := "Pain Relief", mfg := "Acme",
    stock := 100 }

/-- Second demo remote row. -/
def demoRowB : MedRow :=
  { id := "med_b", name := "Beta", cat := "Antibiotic", mfg := "Acme",
    stock := 100 }

/-- A remote `meds` table holding the two medicines of the demo cart. -/
def demoDb : List MedRow := [demoRowA, demoRowB]

/-- The sale the demo cart produces, as recorded by the local fallback. -/
def demoSale : Sale where
  id := "sale_demo"
  customerName := some "John Smith"
  items := demoCart
  total := 40
  timestamp := "t1"

/-- A demo sequence of stock-mutating operations, exercising all four
operation kinds. -/
def demoOps : List StockOp :=
  [.localStockAdj "med_001" 200 "subtract" "t1",
   .remoteStockAdj "med_001" 3 "add" "t2",
   .remoteSale demoCart,
   .localSale demoSale]

/-- A Validator-valid medicine whose `minStock` is 0 (the counterexample
input for the remote round-trip). -/
def c4med : MedicineData where
  name := some "Test"
  category := some "Pain Relief"
  manufacturer := some "Acme"
  stock := some 10
  minStock := some 0
  maxStock := some 50
  price := some 9

/-- A medicine bag matching the spec's add-medicine scenario (with a
positive `minStock`), used for the amended round-trip witness. -/
def c4good : MedicineData where
  name := some "Test"
  category := some "Pain Relief"
  manufacturer := some "Acme"
  stock := some 10
  minStock := some 5
  maxStock := some 50
  price := some 9

/-! ## Helper lemmas -/

/-- A list with a member is not empty. -/
theorem isEmpty_false_of_mem {a : α} {l : List α} (h : a ∈ l) :
    l.isEmpty = false := by
  cases l with
  | nil => cases h
  | cons x xs => rfl

/-! ## Lemmas about the local store primitives -/

theorem localUpdate_length (getId : α → String) (id : String) (f : α → α)
    (l : List α) : (localUpdate getId id f l).1.length = l.length := by
  induction l with
  | nil => rfl
  | cons x xs ih =>
      simp only [localUpdate]
      split
      · simp
      · simpa using ih

/-- When no element carries the id, `update` returns `null` and leaves the
array untouched. -/
theorem localUpdate_not_found (getId : α → String) (id : String) (f : α → α)
    (l : List α) (h : ∀ x ∈ l, getId x ≠ id) :
    localUpdate getId id f l = (l, none) := by
  induction l with
  | nil => rfl
  | cons x xs ih =>
      simp only [localUpdate]
      rw [if_neg (h x (List.mem_cons_self x xs))]
      have := ih fun y hy => h y (List.mem_cons_of_mem x hy)
      simp [this]

/-- When `find?` locates the first element with the id, `update` merges
into exactly that element, returns the merged element, and the merged
element is again the first match (the merge preserves the id). -/
theorem localUpdate_of_find (getId : α → String) (id : String) (f : α → α)
    (l : List α) (m : α)
    (hf : ∀ x, getId (f x) = getId x)
    (h : l.find? (fun x => getId x = id) = some m) :
    (localUpdate getId id f l).2 = some (f m) ∧
    (localUpdate getId id f l).1.find? (fun x => getId x = id) = some (f m) := by
  induction l with
  | nil => simp [List.find?] at h
  | cons x xs ih =>
      rw [List.find?_cons] at h
      by_cases hx : getId x = id
      · simp only [decide_eq_true hx] at h
        cases h
        constructor
        · simp [localUpdate, hx]
        · simp only [localUpdate, if_pos hx]
          rw [List.find?_cons]
          simp [hf, hx]
      · simp only [decide_eq_false hx, Bool.false_eq_true, if_false] at h
        obtain ⟨h1, h2⟩ := ih h
        constructor
        · simpa [localUpdate, hx] using h1
        · simp only [localUpdate, if_neg hx]
          rw [List.find?_cons]
          simp only [decide_eq_false hx, Bool.false_eq_true, if_false]
          exact h2

/-- Two successive `update`s with the same id compose the merges. -/
theorem localUpdate_localUpdate (getId : α → String) (id : String)
    (f g : α → α) (l : List α) (hf : ∀ x, getId (f x) = getId x) :
    localUpdate getId id g (localUpdate getId id f l).1
      = localUpdate getId id (fun x => g (f x)) l := by
  induction l with
  | nil => rfl
  | cons x xs ih =>
      by_cases hx : getId x = id
      · simp [localUpdate, hx, hf]
      · simp only [localUpdate, if_neg hx]
        simp [ih]

/-! ## Lemmas about the remote row updates -/

/-- A conditional row rewrite that preserves ids rewrites exactly the rows
the filter selects. -/
theorem filter_map_ite (db : List MedRow) (id : String) (h : MedRow → MedRow)
    (hid : ∀ r, (h r).id = r.id) :
    (db.map fun r => if r.id = id then h r else r).filter (fun r => r.id = id)
      = (db.filter (fun r => r.id = id)).map h := by
  induction db with
  | nil => rfl
  | cons x xs ih =>
      by_cases hx : x.id = id
      · simp [hx, hid, ih]
      · simp [hx, ih]

/-- Rows with a different id are untouched by the conditional rewrite. -/
theorem filter_map_ite_ne (db : List MedRow) (id other : String)
    (h : MedRow → MedRow) (hid : ∀ r, (h r).id = r.id) (hne : other ≠ id) :
    (db.map fun r => if r.id = id then h r else r).filter (fun r => r.id = other)
      = db.filter (fun r => r.id = other) := by
  have hne' : id ≠ other := fun hc => hne hc.symm
  induction db with
  | nil => rfl
  | cons x xs ih =>
      by_cases hx : x.id = id
      · simp [hx, hid, hne', ih]
      · by_cases ho : x.id = other
        · simp [hx, ho, hne, ih]
        · simp [hx, ho, ih]

/-! ## C1: updateStock subtract semantics on both paths -/

/-- C1: for a medicine with current stock `s` and a positive integer
quantity `q`, the local fallback of `updateStock(id, q, 'subtract')` sets
the stock to `max 0 (s - q)` (silent clamp), while the remote handler
rejects with the insufficient-stock error exactly when `q > s` (leaving
the row untouched is immediate since nothing is written) and otherwise
stores `s - q`. -/
theorem C1_updateStock_subtract
    (store : PharmacyStore) (db : List MedRow) (id now : String) (q s : ℚ)
    (m : StoredMedicine) (row : MedRow)
    (hq : 0 < q) (hint : isIntegerQ q = true)
    (hfind : store.medicines.find? (fun x => x.id = id) = some m)
    (hstock : m.fields.stock = some s)
    (hrow : db.filter (fun r => r.id = id) = [row])
    (hrowstock : row.stock = s) :
    (∃ store2 upd,
        updateStockLocal store id q "subtract" now = .ok (store2, some upd) ∧
        upd.fields.stock = some (max 0 (s - q)) ∧
        store2.medicines.find? (fun x => x.id = id) = some upd) ∧
    (q > s → remoteUpdateStock db id q "subtract" now =
        .error "Insufficient stock") ∧
    (q ≤ s → ∃ db2 t,
        remoteUpdateStock db id q "subtract" now = .ok (db2, t) ∧
        t.current_stock = s - q ∧
        db2.filter (fun r => r.id = id) =
          [{ row with stock := s - q, updated := now }]) := by
  have hval : ¬ (q ≤ 0 ∨ ¬ isIntegerQ q = true) := by
    push_neg
    exact ⟨hq, hint⟩
  refine ⟨?_, ?_, ?_⟩
  · -- local fallback
    obtain ⟨h1, h2⟩ := localUpdate_of_find (fun x => x.id) id
      (localStockMerge ((m.fields.stock).getD 0 - q) now)
      store.medicines m (fun _ => rfl) hfind
    refine ⟨{ store with
              medicines := (localUpdate (fun x => x.id) id
                (localStockMerge ((m.fields.stock).getD 0 - q) now)
                store.medicines).1 },
            localStockMerge ((m.fields.stock).getD 0 - q) now m, ?_, ?_, ?_⟩
    · simp only [updateStockLocal, hfind]
      simp [h1]
    · simp [localStockMerge, hstock]
    · simpa using h2
  · intro hgt
    simp only [remoteUpdateStock, if_neg hval]
    rw [if_neg (by simp)]
    rw [hrow]
    simp only [if_neg (by simp : ¬ (("subtract" : String) = "add"))]
    rw [if_pos]
    rw [hrowstock]
    linarith
  · intro hle
    refine ⟨db.map fun r =>
              if r.id = id then { r with stock := row.stock - q, updated := now }
              else r,
            transformMed { row with stock := row.stock - q, updated := now },
            ?_, ?_, ?_⟩
    · simp only [remoteUpdateStock, if_neg hval]
      rw [if_neg (by simp)]
      rw [hrow]
      simp only [if_neg (by simp : ¬ (("subtract" : String) = "add"))]
      rw [if_neg (by rw [hrowstock]; push_neg; linarith)]
    · simp [transformMed, hrowstock]
    · have := filter_map_ite db id
        (fun r => { r with stock := row.stock - q, updated := now })
        (fun r => rfl)
      rw [hrow] at this
      simp only [List.map_cons, List.map_nil] at this
      rw [← hrowstock]
      exact this

/-- Witness for C1: the sample store (`med_001`, stock 150) and the same
row remotely, subtracting 3. -/
theorem C1_updateStock_subtract_witness :
    (∃ store2 upd,
        updateStockLocal sampleStore "med_001" 3 "subtract" "t1"
          = .ok (store2, some upd) ∧
        upd.fields.stock = some (max 0 (150 - 3)) ∧
        store2.medicines.find? (fun x => x.id = "med_001") = some upd) ∧
    ((3:ℚ) > 150 →
        remoteUpdateStock sampleDb "med_001" 3 "subtract" "t1"
          = .error "Insufficient stock") ∧
    ((3:ℚ) ≤ 150 → ∃ db2 t,
        remoteUpdateStock sampleDb "med_001" 3 "subtract" "t1"
          = .ok (db2, t) ∧
        t.current_stock = 150 - 3 ∧
        db2.filter (fun r => r.id = "med_001") =
          [{ sampleRow with stock := 150 - 3, updated := "t1" }]) :=
  C1_updateStock_subtract sampleStore sampleDb "med_001" "t1" 3 150
    sampleStored sampleRow
    (by norm_num) (by decide) rfl rfl rfl rfl

/-- The success path of the `updateStock` local fallback, fully explicit:
with the medicine found, the raw signed quantity is applied and clamped. -/
theorem updateStockLocal_found (store : PharmacyStore) (id now : String)
    (q : ℚ) (type : String) (m : StoredMedicine)
    (hfind : store.medicines.find? (fun x => x.id = id) = some m) :
    updateStockLocal store id q type now = .ok
      ({ store with medicines := (localUpdate (fun x => x.id) id
            (localStockMerge (if type = "add" then (m.fields.stock).getD 0 + q
                              else (m.fields.stock).getD 0 - q) now)
            store.medicines).1 },
       some (localStockMerge
              (if type = "add" then (m.fields.stock).getD 0 + q
               else (m.fields.stock).getD 0 - q) now m)) ∧
    ((localUpdate (fun x => x.id) id
        (localStockMerge (if type = "add" then (m.fields.stock).getD 0 + q
                          else (m.fields.stock).getD 0 - q) now)
        store.medicines).1).find? (fun x => x.id = id) = some
      (localStockMerge (if type = "add" then (m.fields.stock).getD 0 + q
                        else (m.fields.stock).getD 0 - q) now m) := by
  obtain ⟨h1, h2⟩ := localUpdate_of_find (fun x => x.id) id
    (localStockMerge (if type = "add" then (m.fields.stock).getD 0 + q
                      else (m.fields.stock).getD 0 - q) now)
    store.medicines m (fun _ => rfl) hfind
  constructor
  · simp only [updateStockLocal, hfind]
    simp [h1]
  · exact h2

/-! ## C10: stock-update validation is remote-only -/

/-- C10: the remote stock endpoint rejects any quantity that is not a
truthy positive integer, while the local fallback applies the raw signed
quantity unvalidated — `max 0 (stock + q)` for `'add'`, `max 0 (stock - q)`
for `'subtract'` — so a negative `q` with `'subtract'` strictly increases
the stock. -/
theorem C10_stock_validation_only_remote :
    (∀ (db : List MedRow) (id now : String) (q : ℚ) (type : String),
        q ≤ 0 ∨ isIntegerQ q = false →
        remoteUpdateStock db id q type now =
          .error "Quantity must be a positive integer") ∧
    (∀ (store : PharmacyStore) (id now : String) (q s : ℚ)
        (m : StoredMedicine),
        store.medicines.find? (fun x => x.id = id) = some m →
        m.fields.stock = some s →
        (∃ store2, updateStockLocal store id q "add" now =
            .ok (store2, some (localStockMerge (s + q) now m))) ∧
        (∃ store2, updateStockLocal store id q "subtract" now =
            .ok (store2, some (localStockMerge (s - q) now m))) ∧
        (localStockMerge (s + q) now m).fields.stock = some (max 0 (s + q)) ∧
        (localStockMerge (s - q) now m).fields.stock = some (max 0 (s - q)) ∧
        (q < 0 → s < max 0 (s - q))) := by
  constructor
  · intro db id now q type h
    have hcond : q ≤ 0 ∨ ¬ isIntegerQ q = true := by
      rcases h with h | h
      · exact Or.inl h
      · exact Or.inr (by simp [h])
    simp only [remoteUpdateStock, if_pos hcond]
  · intro store id now q s m hfind hstock
    have hadd := updateStockLocal_found store id now q "add" m hfind
    have hsub := updateStockLocal_found store id now q "subtract" m hfind
    rw [if_pos rfl] at hadd
    rw [if_neg (by simp : ¬ (("subtract" : String) = "add"))] at hsub
    rw [hstock] at hadd hsub
    simp only [Option.getD_some] at hadd hsub
    refine ⟨⟨_, hadd.1⟩, ⟨_, hsub.1⟩, rfl, rfl, ?_⟩
    intro hq
    exact lt_max_of_lt_right (by linarith)

/-- Witness for C10: quantity 0 is rejected remotely; quantity −5 with
`'subtract'` goes through locally on the sample store and raises the
stock from 150 to `max 0 (150 − (−5)) = 155 > 150`. -/
theorem C10_stock_validation_only_remote_witness :
    (remoteUpdateStock sampleDb "med_001" 0 "subtract" "t1" =
        .error "Quantity must be a positive integer") ∧
    (∃ store2, updateStockLocal sampleStore "med_001" (-5) "subtract" "t1" =
        .ok (store2, some (localStockMerge (150 - (-5)) "t1" sampleStored))) ∧
    (localStockMerge (150 - (-5)) "t1" sampleStored).fields.stock =
        some (max 0 (150 - (-5))) ∧
    (150 : ℚ) < max 0 (150 - (-5)) := by
  have h1 := C10_stock_validation_only_remote.1 sampleDb "med_001" "t1" 0
    "subtract" (Or.inl le_rfl)
  obtain ⟨-, hsub, -, hsub2, hlt⟩ :=
    C10_stock_validation_only_remote.2 sampleStore "med_001" "t1" (-5) 150
      sampleStored rfl rfl
  exact ⟨h1, hsub, hsub2, hlt (by norm_num)⟩

/-! ## C3: fallback failure semantics (corrected) -/

/-- Counterexample to C3 as stated: `updateStock` with an id absent from
the local store throws `Medicine not found` to the caller on the fallback
path — an error that is not a pre-network validation failure. -/
theorem C3_counterexample :
    updateStockLocal sampleStore "med_999" 1 "subtract" "t1" =
      .error "Medicine not found" := rfl

/-- C3 (amended): every data-access fallback returns a local result
rather than rethrowing, with one exception — `updateStock` throws
`Medicine not found` exactly when the id is absent from the local
medicines array, and that is the only error the fallback layer can
produce. -/
theorem C3_fallback_error_characterization :
    ∀ (store : PharmacyStore) (id : String) (q : ℚ) (type now : String),
      (updateStockLocal store id q type now = .error "Medicine not found" ↔
        store.medicines.find? (fun x => x.id = id) = none) ∧
      (∀ e, updateStockLocal store id q type now = .error e →
        e = "Medicine not found") := by
  intro store id q type now
  cases hfind : store.medicines.find? (fun x => x.id = id) with
  | none =>
      constructor
      · constructor
        · intro _; rfl
        · intro _
          simp [updateStockLocal, hfind]
      · intro e he
        simp [updateStockLocal, hfind] at he
        exact he.symm
  | some m =>
      have h := (updateStockLocal_found store id now q type m hfind).1
      constructor
      · constructor
        · intro hc
          rw [h] at hc
          cases hc
        · intro hc
          cases hc
      · intro e he
        rw [h] at he
        cases he

/-- Witness for C3 (amended) at a concrete unknown id. -/
theorem C3_fallback_error_characterization_witness :
    updateStockLocal sampleStore "med_x" 2 "add" "t1" =
      .error "Medicine not found" :=
  (C3_fallback_error_characterization sampleStore "med_x" 2 "add" "t1").1.mpr
    rfl

/-! ## C9: update with an unknown id returns null -/

/-- C9: `LocalStorageManager.update` with an id not in the array returns
`null` and leaves the array unchanged, so the fallbacks of
`updateMedicine`, `updatePrescriptionStatus`, `verifyPrescription` and
`updateTicketStatus` all return a `null` entity instead of throwing. -/
theorem C9_update_unknown_id_returns_null :
    (∀ (α : Type) (getId : α → String) (id : String) (f : α → α)
        (l : List α),
        (∀ x ∈ l, getId x ≠ id) → localUpdate getId id f l = (l, none)) ∧
    (∀ (store : PharmacyStore) (id now : String)
        (upd : MedicineData → MedicineData),
        (∀ x ∈ store.medicines, x.id ≠ id) →
        updateMedicineLocal store id now upd = (store, none)) ∧
    (∀ (store : PharmacyStore) (id status now : String),
        (∀ x ∈ store.prescriptions, x.id ≠ id) →
        updatePrescriptionStatusLocal store id status now = (store, none)) ∧
    (∀ (store : PharmacyStore) (id notes : String) (approved : Bool)
        (now : String),
        (∀ x ∈ store.prescriptions, x.id ≠ id) →
        verifyPrescriptionLocal store id notes approved now = (store, none)) ∧
    (∀ (store : PharmacyStore) (id status now : String),
        (∀ x ∈ store.tickets, x.id ≠ id) →
        updateTicketStatusLocal store id status now = (store, none)) := by
  refine ⟨?_, ?_, ?_, ?_, ?_⟩
  · intro α getId id f l h
    exact localUpdate_not_found getId id f l h
  · intro store id now upd h
    simp [updateMedicineLocal, localUpdate_not_found _ _ _ _ h]
  · intro store id status now h
    simp [updatePrescriptionStatusLocal, localUpdate_not_found _ _ _ _ h]
  · intro store id notes approved now h
    simp [verifyPrescriptionLocal, localUpdate_not_found _ _ _ _ h]
  · intro store id status now h
    simp [updateTicketStatusLocal, localUpdate_not_found _ _ _ _ h]

/-- Witness for C9: the unknown id `"nope"` against the sample store. -/
theorem C9_update_unknown_id_returns_null_witness :
    localUpdate (fun x : StoredMedicine => x.id) "nope" (fun x => x)
        sampleStore.medicines = (sampleStore.medicines, none) ∧
    updateMedicineLocal sampleStore "nope" "t1" (fun f => f) =
      (sampleStore, none) ∧
    updatePrescriptionStatusLocal sampleStore "nope" "verified" "t1" =
      (sampleStore, none) ∧
    verifyPrescriptionLocal sampleStore "nope" "ok" true "t1" =
      (sampleStore, none) ∧
    updateTicketStatusLocal sampleStore "nope" "closed" "t1" =
      (sampleStore, none) :=
  ⟨C9_update_unknown_id_returns_null.1 StoredMedicine (fun x => x.id) "nope"
      (fun x => x) sampleStore.medicines (by decide),
   C9_update_unknown_id_returns_null.2.1 sampleStore "nope" "t1" (fun f => f)
      (by decide),
   C9_update_unknown_id_returns_null.2.2.1 sampleStore "nope" "verified" "t1"
      (by decide),
   C9_update_unknown_id_returns_null.2.2.2.1 sampleStore "nope" "ok" true "t1"
      (by decide),
   C9_update_unknown_id_returns_null.2.2.2.2 sampleStore "nope" "closed" "t1"
      (by decide)⟩

/-- The element `update` returns is always the merge of some element. -/
theorem localUpdate_snd (getId : α → String) (id : String) (f : α → α)
    (l : List α) (y : α) (h : (localUpdate getId id f l).2 = some y) :
    ∃ x, y = f x := by
  induction l with
  | nil => cases h
  | cons x xs ih =>
      by_cases hx : getId x = id
      · simp only [localUpdate, if_pos hx, Option.some.injEq] at h
        exact ⟨x, h.symm⟩
      · simp only [localUpdate, if_neg hx] at h
        exact ih h

/-! ## C7: status updates are idempotent -/

/-- C7: updating a prescription's or a ticket's status twice to the same
target `s` gives the same store as a single update (the second call merely
refreshes `updatedAt`), the array length never changes (no duplicate
entries), and the entity the call returns carries status `s`. -/
theorem C7_status_update_idempotent :
    (∀ (store : PharmacyStore) (id s t1 t2 : String),
        (updatePrescriptionStatusLocal
            (updatePrescriptionStatusLocal store id s t1).1 id s t2).1
          = (updatePrescriptionStatusLocal store id s t2).1 ∧
        (updatePrescriptionStatusLocal store id s t1).1.prescriptions.length
          = store.prescriptions.length ∧
        (∀ p, (updatePrescriptionStatusLocal store id s t1).2 = some p →
            p.status = s)) ∧
    (∀ (store : PharmacyStore) (id s t1 t2 : String),
        (updateTicketStatusLocal
            (updateTicketStatusLocal store id s t1).1 id s t2).1
          = (updateTicketStatusLocal store id s t2).1 ∧
        (updateTicketStatusLocal store id s t1).1.tickets.length
          = store.tickets.length ∧
        (∀ p, (updateTicketStatusLocal store id s t1).2 = some p →
            p.status = s)) := by
  constructor
  · intro store id s t1 t2
    refine ⟨?_, ?_, ?_⟩
    · have habs := localUpdate_localUpdate (fun p : Prescription => p.id) id
        (fun p => { p with status := s, updatedAt := t1 })
        (fun p => { p with status := s, updatedAt := t2 })
        store.prescriptions (fun _ => rfl)
      simp only [updatePrescriptionStatusLocal]
      rw [habs]
    · simp only [updatePrescriptionStatusLocal]
      exact localUpdate_length _ _ _ _
    · intro p hp
      simp only [updatePrescriptionStatusLocal] at hp
      obtain ⟨x, hx⟩ := localUpdate_snd _ _ _ _ _ hp
      rw [hx]
  · intro store id s t1 t2
    refine ⟨?_, ?_, ?_⟩
    · have habs := localUpdate_localUpdate (fun p : Ticket => p.id) id
        (fun p => { p with status := s, updatedAt := t1 })
        (fun p => { p with status := s, updatedAt := t2 })
        store.tickets (fun _ => rfl)
      simp only [updateTicketStatusLocal]
      rw [habs]
    · simp only [updateTicketStatusLocal]
      exact localUpdate_length _ _ _ _
    · intro p hp
      simp only [updateTicketStatusLocal] at hp
      obtain ⟨x, hx⟩ := localUpdate_snd _ _ _ _ _ hp
      rw [hx]

/-- Witness for C7 on the sample store's prescription and ticket. -/
theorem C7_status_update_idempotent_witness :
    ((updatePrescriptionStatusLocal
        (updatePrescriptionStatusLocal sampleStore "presc_001" "verified"
          "t1").1 "presc_001" "verified" "t2").1
      = (updatePrescriptionStatusLocal sampleStore "presc_001" "verified"
          "t2").1) ∧
    ((updatePrescriptionStatusLocal sampleStore "presc_001" "verified"
        "t1").1.prescriptions.length = sampleStore.prescriptions.length) ∧
    ({ samplePresc with status := "verified", updatedAt := "t1"
        : Prescription }.status = "verified") ∧
    ((updateTicketStatusLocal
        (updateTicketStatusLocal sampleStore "tkt_001" "closed" "t1").1
        "tkt_001" "closed" "t2").1
      = (updateTicketStatusLocal sampleStore "tkt_001" "closed" "t2").1) ∧
    ({ sampleTicket with status := "closed", updatedAt := "t1"
        : Ticket }.status = "closed") :=
  ⟨(C7_status_update_idempotent.1 sampleStore "presc_001" "verified"
      "t1" "t2").1,
   (C7_status_update_idempotent.1 sampleStore "presc_001" "verified"
      "t1" "t2").2.1,
   (C7_status_update_idempotent.1 sampleStore "presc_001" "verified"
      "t1" "t2").2.2 _ rfl,
   (C7_status_update_idempotent.2 sampleStore "tkt_001" "closed"
      "t1" "t2").1,
   (C7_status_update_idempotent.2 sampleStore "tkt_001" "closed"
      "t1" "t2").2.2 _ rfl⟩

/-! ## C8: deletion semantics -/

/-- C8: the remote `DELETE /medicines/:id` is a soft delete — the table
keeps its length, the matching row survives with only `active` flipped to
`false`, non-matching rows are untouched, and the row no longer appears in
`GET /medicines` (which filters on `active = true`) — while the local
fallback hard-removes exactly the records with that id. -/
theorem C8_delete_semantics :
    (∀ (db : List MedRow) (id : String),
        (remoteDeleteMedicine db id).length = db.length) ∧
    (∀ (db : List MedRow) (id : String) (r : MedRow), r ∈ db → r.id = id →
        ({ r with active := false } : MedRow) ∈ remoteDeleteMedicine db id) ∧
    (∀ (db : List MedRow) (id : String) (r : MedRow), r ∈ db → r.id ≠ id →
        r ∈ remoteDeleteMedicine db id) ∧
    (∀ (db : List MedRow) (id : String) (e : TransformedMedicine),
        e ∈ remoteGetMedicines (remoteDeleteMedicine db id) → e.id ≠ id) ∧
    (∀ (store : PharmacyStore) (id : String) (m : StoredMedicine),
        m ∈ (deleteMedicineLocal store id).medicines ↔
          (m ∈ store.medicines ∧ m.id ≠ id)) := by
  refine ⟨?_, ?_, ?_, ?_, ?_⟩
  · intro db id
    simp [remoteDeleteMedicine]
  · intro db id r hr hid
    exact List.mem_map.mpr ⟨r, hr, by rw [if_pos hid]⟩
  · intro db id r hr hid
    exact List.mem_map.mpr ⟨r, hr, by rw [if_neg hid]⟩
  · intro db id e he
    rw [remoteGetMedicines,
      (List.perm_insertionSort _ _).mem_iff] at he
    obtain ⟨r, hrf, hre⟩ := List.mem_map.mp he
    obtain ⟨hrdel, hract⟩ := List.mem_filter.mp hrf
    obtain ⟨r0, _, hr0e⟩ := List.mem_map.mp hrdel
    by_cases h0 : r0.id = id
    · rw [if_pos h0] at hr0e
      rw [← hr0e] at hract
      cases hract
    · rw [if_neg h0] at hr0e
      rw [← hre, ← hr0e]
      exact h0
  · intro store id m
    simp [deleteMedicineLocal, localDelete, List.mem_filter]

/-- Witness for C8 on the two-row demo table, deleting `med_a`. -/
theorem C8_delete_semantics_witness :
    ((remoteDeleteMedicine demoDb "med_a").length = demoDb.length) ∧
    (({ demoRowA with active := false } : MedRow) ∈
        remoteDeleteMedicine demoDb "med_a") ∧
    (demoRowB ∈ remoteDeleteMedicine demoDb "med_a") ∧
    ((transformMed demoRowB).id ≠ "med_a") ∧
    (sampleStored ∈ (deleteMedicineLocal sampleStore "med_x").medicines ↔
        (sampleStored ∈ sampleStore.medicines ∧ sampleStored.id ≠ "med_x")) :=
  ⟨C8_delete_semantics.1 demoDb "med_a",
   C8_delete_semantics.2.1 demoDb "med_a" demoRowA (by simp [demoDb]) rfl,
   C8_delete_semantics.2.2.1 demoDb "med_a" demoRowB (by simp [demoDb])
     (by decide),
   C8_delete_semantics.2.2.2.1 demoDb "med_a" (transformMed demoRowB)
     (by rw [remoteGetMedicines, (List.perm_insertionSort _ _).mem_iff]
         exact List.mem_map.mpr ⟨demoRowB,
           List.mem_filter.mpr ⟨List.mem_map.mpr ⟨demoRowB, by simp [demoDb],
             by rw [if_neg (by decide)]⟩, rfl⟩, rfl⟩),
   C8_delete_semantics.2.2.2.2 sampleStore "med_x" sampleStored⟩

/-! ## C5: stocks never go negative -/

/-- Every element of the updated array is an old element or the merge of
an old element. -/
theorem localUpdate_fst_mem (getId : α → String) (id : String) (f : α → α) :
    ∀ (l : List α) (y : α), y ∈ (localUpdate getId id f l).1 →
      y ∈ l ∨ ∃ x ∈ l, y = f x := by
  intro l
  induction l with
  | nil => intro y hy; cases hy
  | cons x xs ih =>
      intro y hy
      by_cases hx : getId x = id
      · simp only [localUpdate, if_pos hx, List.mem_cons] at hy
        rcases hy with hy | hy
        · exact Or.inr ⟨x, List.mem_cons_self x xs, hy⟩
        · exact Or.inl (List.mem_cons_of_mem x hy)
      · simp only [localUpdate, if_neg hx, List.mem_cons] at hy
        rcases hy with hy | hy
        · exact Or.inl (hy ▸ List.mem_cons_self x xs)
        · rcases ih y hy with h | ⟨z, hz, hzy⟩
          · exact Or.inl (List.mem_cons_of_mem x h)
          · exact Or.inr ⟨z, List.mem_cons_of_mem x hz, hzy⟩

/-- The remote stock endpoint keeps all stocks non-negative: the only
write is guarded by the `newStock < 0` rejection. -/
theorem remoteUpdateStock_nonneg (db : List MedRow) (id : String) (q : ℚ)
    (type now : String) (db2 : List MedRow) (t : TransformedMedicine)
    (h : remoteUpdateStock db id q type now = .ok (db2, t))
    (hdb : ∀ r ∈ db, 0 ≤ r.stock) : ∀ r ∈ db2, 0 ≤ r.stock := by
  unfold remoteUpdateStock at h
  split at h
  · cases h
  split at h
  · cases h
  split at h
  case _ medicine heq =>
      dsimp only at h
      rcases lt_or_le (if type = "add" then medicine.stock + q
          else medicine.stock - q) 0 with hlt | hge
      · rw [if_pos hlt] at h
        cases h
      · rw [if_neg (not_lt.mpr hge)] at h
        simp only [Except.ok.injEq, Prod.mk.injEq] at h
        obtain ⟨hdb2, -⟩ := h
        intro r hr
        rw [← hdb2] at hr
        obtain ⟨r0, hr0, hr0e⟩ := List.mem_map.mp hr
        by_cases h0 : r0.id = id
        · rw [if_pos h0] at hr0e
          rw [← hr0e]
          exact hge
        · rw [if_neg h0] at hr0e
          rw [← hr0e]
          exact hdb r0 hr0
  case _ => cases h

/-- The local `updateStock` fallback keeps all stocks non-negative: the
written stock is clamped with `Math.max(0, ·)`. -/
theorem updateStockLocal_nonneg (store : PharmacyStore) (id : String)
    (q : ℚ) (type now : String) (s2 : PharmacyStore)
    (o : Option StoredMedicine)
    (h : updateStockLocal store id q type now = .ok (s2, o))
    (hm : ∀ m ∈ store.medicines, ∀ v : ℚ, m.fields.stock = some v → 0 ≤ v) :
    ∀ m ∈ s2.medicines, ∀ v : ℚ, m.fields.stock = some v → 0 ≤ v := by
  unfold updateStockLocal at h
  split at h
  case _ medicine heq =>
      simp only [Except.ok.injEq, Prod.mk.injEq] at h
      obtain ⟨hs2, -⟩ := h
      intro m hmem v hv
      rw [← hs2] at hmem
      simp only at hmem
      rcases localUpdate_fst_mem _ _ _ _ _ hmem with hold | ⟨x, hx, hxy⟩
      · exact hm m hold v hv
      · rw [hxy] at hv
        simp only [localStockMerge, Option.some.injEq] at hv
        rw [← hv]
        exact le_max_left 0 _
  case _ => cases h

/-- Each iteration of the sale stock loop keeps stocks non-negative: the
write happens only under the `newStock >= 0` guard. -/
theorem remoteSaleStockStep_nonneg (db : List MedRow) (item : CartItem)
    (hdb : ∀ r ∈ db, 0 ≤ r.stock) :
    ∀ r ∈ remoteSaleStockStep db item, 0 ≤ r.stock := by
  unfold remoteSaleStockStep
  split
  case _ medicine heq =>
      dsimp only
      rcases le_or_lt 0 (medicine.stock - item.quantity) with hge | hlt
      · rw [if_pos hge]
        intro r hr
        obtain ⟨r0, hr0, hr0e⟩ := List.mem_map.mp hr
        by_cases h0 : r0.id = item.medicineId
        · rw [if_pos h0] at hr0e
          rw [← hr0e]
          exact hge
        · rw [if_neg h0] at hr0e
          rw [← hr0e]
          exact hdb r0 hr0
      · rw [if_neg (not_le.mpr hlt)]
        exact hdb
  case _ => exact hdb

/-- The whole sale stock loop keeps stocks non-negative. -/
theorem remoteCreateSaleStock_nonneg (items : List CartItem) :
    ∀ db : List MedRow, (∀ r ∈ db, 0 ≤ r.stock) →
      ∀ r ∈ remoteCreateSaleStock db items, 0 ≤ r.stock := by
  induction items with
  | nil => intro db hdb; exact hdb
  | cons item rest ih =>
      intro db hdb
      exact ih (remoteSaleStockStep db item)
        (remoteSaleStockStep_nonneg db item hdb)

/-- C5: starting from a state with non-negative stocks, any sequence of
stock-mutating operations (remote stock endpoint, local stock fallback,
remote sale stock loop, local sale fallback) leaves every stock
non-negative after each operation. -/
theorem C5_stock_invariant (st : SysState) (ops : List StockOp)
    (h : StocksNonneg st) : StocksNonneg (ops.foldl applyOp st) := by
  induction ops generalizing st with
  | nil => exact h
  | cons op rest ih =>
      apply ih
      cases op with
      | remoteStockAdj id q type now =>
          simp only [applyOp]
          split
          case _ db2 t heq =>
              exact ⟨remoteUpdateStock_nonneg st.db id q type now db2 t
                heq h.1, h.2⟩
          case _ => exact h
      | localStockAdj id q type now =>
          simp only [applyOp]
          split
          case _ s2 o heq =>
              exact ⟨h.1, updateStockLocal_nonneg st.store id q type now
                s2 o heq h.2⟩
          case _ => exact h
      | remoteSale items =>
          exact ⟨remoteCreateSaleStock_nonneg items st.db h.1, h.2⟩
      | localSale sale => exact ⟨h.1, h.2⟩

/-- Witness for C5: the demo operation sequence applied to the sample
system state. -/
theorem C5_stock_invariant_witness :
    StocksNonneg (demoOps.foldl applyOp sampleSys) :=
  C5_stock_invariant sampleSys demoOps
    ⟨by intro r hr
        simp only [sampleSys, sampleDb, List.mem_singleton] at hr
        rw [hr]
        norm_num [sampleRow],
     by intro m hm v hv
        simp only [sampleSys, sampleStore, List.mem_singleton] at hm
        rw [hm] at hv
        simp only [sampleStored, Option.some.injEq] at hv
        rw [← hv]
        norm_num⟩

/-! ## C2: sale total and sale stock updates -/

/-- One sale stock iteration leaves rows with a different id untouched. -/
theorem saleStep_filter_ne (db : List MedRow) (item : CartItem) (x : String)
    (hne : x ≠ item.medicineId) :
    (remoteSaleStockStep db item).filter (fun r => r.id = x)
      = db.filter (fun r => r.id = x) := by
  unfold remoteSaleStockStep
  split
  case _ medicine heq =>
      dsimp only
      rcases le_or_lt 0 (medicine.stock - item.quantity) with hge | hlt
      · rw [if_pos hge]
        exact filter_map_ite_ne db item.medicineId x _ (fun r => rfl) hne
      · rw [if_neg (not_le.mpr hlt)]
  case _ => rfl

/-- The whole sale stock loop leaves rows untouched whose id no line item
references. -/
theorem saleSteps_filter_ne (items : List CartItem) :
    ∀ (db : List MedRow) (x : String), (∀ i ∈ items, x ≠ i.medicineId) →
      (remoteCreateSaleStock db items).filter (fun r => r.id = x)
        = db.filter (fun r => r.id = x) := by
  induction items with
  | nil => intro db x _; rfl
  | cons item rest ih =>
      intro db x h
      have hstep : remoteCreateSaleStock db (item :: rest)
          = remoteCreateSaleStock (remoteSaleStockStep db item) rest := rfl
      rw [hstep]
      exact (ih (remoteSaleStockStep db item) x
          (fun i hi => h i (List.mem_cons_of_mem _ hi))).trans
        (saleStep_filter_ne db item x (h item (List.mem_cons_self _ _)))

/-- One sale stock iteration subtracts the line quantity from the
uniquely matching row when stock suffices. -/
theorem saleStep_filter_target (db : List MedRow) (item : CartItem)
    (m : MedRow)
    (hf : db.filter (fun r => r.id = item.medicineId) = [m])
    (hs : item.quantity ≤ m.stock) :
    (remoteSaleStockStep db item).filter (fun r => r.id = item.medicineId)
      = [{ m with stock := m.stock - item.quantity }] := by
  unfold remoteSaleStockStep
  rw [hf]
  dsimp only
  rw [if_pos (by linarith : m.stock - item.quantity ≥ 0)]
  have h2 := filter_map_ite db item.medicineId
    (fun r => { r with stock := m.stock - item.quantity, updated := r.updated })
    (fun r => rfl)
  rw [hf] at h2
  simp only [List.map_cons, List.map_nil] at h2
  exact h2

/-- The sale stock loop, for pairwise-distinct line items: each uniquely
matching row with sufficient stock ends with exactly its line quantity
subtracted. -/
theorem remoteSale_reduces (items : List CartItem) :
    ∀ db : List MedRow,
      items.Pairwise (fun a b => a.medicineId ≠ b.medicineId) →
      ∀ item ∈ items, ∀ m : MedRow,
        db.filter (fun r => r.id = item.medicineId) = [m] →
        item.quantity ≤ m.stock →
        (remoteCreateSaleStock db items).filter
            (fun r => r.id = item.medicineId)
          = [{ m with stock := m.stock - item.quantity }] := by
  induction items with
  | nil => intro db _ item hitem; cases hitem
  | cons hd tl ih =>
      intro db hpw item hitem m hf hs
      rw [List.pairwise_cons] at hpw
      obtain ⟨hhd, htl⟩ := hpw
      have hstep : remoteCreateSaleStock db (hd :: tl)
          = remoteCreateSaleStock (remoteSaleStockStep db hd) tl := rfl
      rw [hstep]
      rcases List.mem_cons.mp hitem with heq | hmem
      · subst heq
        exact (saleSteps_filter_ne tl (remoteSaleStockStep db item)
            item.medicineId (fun i hi => hhd i hi)).trans
          (saleStep_filter_target db item m hf hs)
      · have h2 := saleStep_filter_ne db hd item.medicineId
          (Ne.symm (hhd item hmem))
        exact ih (remoteSaleStockStep db hd) htl item hmem m
          (h2.trans hf) hs

/-- Counterexample to C2 as stated: on the local fallback path,
`createSale` records the sale but updates no stock — after a sale with a
line of quantity 2 against `med_001`, the medicine still holds stock 150,
not 150 − 2. -/
theorem C2_counterexample :
    (createSaleLocal sampleStore c2sale).1.medicines.find?
        (fun m => m.id = "med_001") = some sampleStored ∧
    sampleStored.fields.stock = some 150 ∧
    (150 : ℚ) ≠ 150 - 2 :=
  ⟨rfl, rfl, by norm_num⟩

/-- C2 (amended): the computed sale total is `Σ price·quantity` — 40.00
for the quantities-2-and-3 / prices-5.00-and-10.00 cart — and on the
remote path each uniquely matching medicine with sufficient stock is
reduced by exactly its line quantity; the local fallback records the sale
verbatim and touches no stock. -/
theorem C2_sale_total_and_stock :
    calculateTotal demoCart = 40 ∧
    (∀ (db : List MedRow) (items : List CartItem),
        items.Pairwise (fun a b => a.medicineId ≠ b.medicineId) →
        ∀ item ∈ items, ∀ m : MedRow,
          db.filter (fun r => r.id = item.medicineId) = [m] →
          item.quantity ≤ m.stock →
          (remoteCreateSaleStock db items).filter
              (fun r => r.id = item.medicineId)
            = [{ m with stock := m.stock - item.quantity }]) ∧
    (∀ (store : PharmacyStore) (sale : Sale),
        (createSaleLocal store sale).1.medicines = store.medicines ∧
        (createSaleLocal store sale).1.sales = store.sales ++ [sale] ∧
        (createSaleLocal store sale).2 = sale) := by
  refine ⟨?_, ?_, ?_⟩
  · norm_num [calculateTotal, demoCart, demoItemA, demoItemB]
  · intro db items hpw item hitem m hf hs
    exact remoteSale_reduces items db hpw item hitem m hf hs
  · intro store sale
    exact ⟨rfl, rfl, rfl⟩

/-- Witness for C2 (amended) on the demo table and cart: `med_a` ends at
stock 98 and `med_b` at 97. -/
theorem C2_sale_total_and_stock_witness :
    calculateTotal demoCart = 40 ∧
    (remoteCreateSaleStock demoDb demoCart).filter
        (fun r => r.id = demoItemA.medicineId)
      = [{ demoRowA with stock := demoRowA.stock - demoItemA.quantity }] ∧
    (remoteCreateSaleStock demoDb demoCart).filter
        (fun r => r.id = demoItemB.medicineId)
      = [{ demoRowB with stock := demoRowB.stock - demoItemB.quantity }] ∧
    (createSaleLocal sampleStore demoSale).1.medicines
      = sampleStore.medicines :=
  ⟨C2_sale_total_and_stock.1,
   C2_sale_total_and_stock.2.1 demoDb demoCart (by decide) demoItemA
     (by simp [demoCart]) demoRowA rfl
     (by norm_num [demoItemA, demoRowA]),
   C2_sale_total_and_stock.2.1 demoDb demoCart (by decide) demoItemB
     (by simp [demoCart]) demoRowB rfl
     (by norm_num [demoItemB, demoRowB]),
   (C2_sale_total_and_stock.2.2 sampleStore demoSale).1⟩

/-! ## C4: add-then-fetch round trip -/

theorem jsTrunc_natCast (n : ℕ) : jsTrunc (n : ℚ) = (n : ℤ) := by
  simp [jsTrunc, Int.tdiv_one]

/-- `parseInt(x) || d` on a whole-number field: a zero value falls back到
the default. -/
theorem parseIntOr_natCast (n : ℕ) (d : ℚ) :
    parseIntOr (some (n : ℚ)) d = if n = 0 then d else n := by
  show (if jsTrunc (n : ℚ) = 0 then d else (jsTrunc (n : ℚ) : ℚ)) = _
  rw [jsTrunc_natCast]
  by_cases hn : n = 0
  · rw [if_pos (by exact_mod_cast hn), if_pos hn]
  · rw [if_neg (by exact_mod_cast hn), if_neg hn]
    norm_num

/-- `parseFloat(x) || 0` is the identity on a present value. -/
theorem parseFloatOr_zero (p : ℚ) : parseFloatOr (some p) 0 = p := by
  show (if p = 0 then 0 else p) = p
  by_cases hp : p = 0
  · rw [if_pos hp, hp]
  · rw [if_neg hp]

/-- Counterexample to C4 as stated: the Validator accepts `minStock = 0`
(`0 < maxStock` and integral), yet the remote `POST /medicines` stores the
default `min_stock = 10` because `parseInt(0)` is falsy — so the fetched
entry does not equal the submitted one. -/
theorem C4_counterexample :
    (validateMedicine (fun _ => true) (fun _ => true) c4med).isValid
        = true ∧
    c4med.minStock = some 0 ∧
    remoteAddMedicine [] "id_1" "t0" c4med =
      .ok ([medRowOf "id_1" "t0" c4med],
           transformMed (medRowOf "id_1" "t0" c4med)) ∧
    (remoteGetMedicines [medRowOf "id_1" "t0" c4med]).map
        (fun e => e.minimum_stock) = [10] :=
  ⟨by decide, rfl, rfl, by decide⟩

/-- C4 (amended): the round trip is exact on the local-fallback path for
every submitted medicine; on the remote path it holds (modulo the
snake_case response field names) for medicines whose required strings are
pre-trimmed, whose numeric fields are present whole numbers with
`minStock` and `maxStock` nonzero, and whose optional strings are absent
or pre-trimmed and nonempty — the handler otherwise trims, nulls empty
strings, and substitutes falsy parses with defaults (10/100/0). -/
theorem C4_roundtrip_amended :
    (∀ (store : PharmacyStore) (newId now : String) (med : MedicineData),
        (addMedicineLocal store newId now med).2 ∈
          getMedicinesLocal (addMedicineLocal store newId now med).1 ∧
        (addMedicineLocal store newId now med).2.fields = med ∧
        (addMedicineLocal store newId now med).2.id = newId) ∧
    (∀ (db : List MedRow) (newId now : String) (med : MedicineData)
        (nm cat mfg : String) (st mn mx : ℕ) (pr : ℚ),
        med.name = some nm → jsTrim nm = nm → 2 ≤ nm.length →
        med.category = some cat → jsTrim cat = cat → 2 ≤ cat.length →
        med.manufacturer = some mfg → jsTrim mfg = mfg → 2 ≤ mfg.length →
        med.stock = some (st : ℚ) →
        med.minStock = some (mn : ℚ) → mn ≠ 0 →
        med.maxStock = some (mx : ℚ) → mx ≠ 0 →
        med.price = some pr →
        optTrimOrNull med.strength = med.strength →
        optOrNull med.expiryDate = med.expiryDate →
        optTrimOrNull med.batchNumber = med.batchNumber →
        optTrimOrNull med.location = med.location →
        ∃ db2 t, remoteAddMedicine db newId now med = .ok (db2, t) ∧
          ∃ e ∈ remoteGetMedicines db2,
            e.id = newId ∧ e.name = nm ∧ e.category = cat ∧
            e.manufacturer = mfg ∧ e.current_stock = st ∧
            e.minimum_stock = mn ∧ e.maximum_stock = mx ∧
            e.unit_price = pr ∧ e.strength = med.strength ∧
            e.expiry_date = med.expiryDate ∧
            e.batch_number = med.batchNumber ∧
            e.storage_location = med.location) := by
  constructor
  · intro store newId now med
    refine ⟨?_, rfl, rfl⟩
    simp [addMedicineLocal, getMedicinesLocal, localAdd]
  · intro db newId now med nm cat mfg st mn mx pr
    intro hnm hnmt hnml hcat hcatt hcatl hmfg hmfgt hmfgl
    intro hst hmn hmn0 hmx hmx0 hpr hstr hexp hbat hloc
    have h1 : missingOrShort med.name 2 = false := by
      rw [hnm]
      simp only [missingOrShort, hnmt]
      simp only [decide_eq_false_iff_not, not_lt]
      exact hnml
    have h2 : missingOrShort med.category 2 = false := by
      rw [hcat]
      simp only [missingOrShort, hcatt]
      simp only [decide_eq_false_iff_not, not_lt]
      exact hcatl
    have h3 : missingOrShort med.manufacturer 2 = false := by
      rw [hmfg]
      simp only [missingOrShort, hmfgt]
      simp only [decide_eq_false_iff_not, not_lt]
      exact hmfgl
    refine ⟨db ++ [medRowOf newId now med],
            transformMed (medRowOf newId now med), ?_, ?_⟩
    · simp only [remoteAddMedicine, h1, h2, h3, Bool.false_eq_true,
        if_false]
    · refine ⟨transformMed (medRowOf newId now med),
              ?_, rfl, ?_, ?_, ?_, ?_, ?_, ?_, ?_, ?_, ?_, ?_, ?_⟩
      · rw [remoteGetMedicines, (List.perm_insertionSort _ _).mem_iff]
        refine List.mem_map.mpr ⟨_, ?_, rfl⟩
        exact List.mem_filter.mpr
          ⟨List.mem_append_right db (List.mem_singleton.mpr rfl), rfl⟩
      · simp [transformMed, medRowOf, hnm, hnmt]
      · simp [transformMed, medRowOf, hcat, hcatt]
      · simp [transformMed, medRowOf, hmfg, hmfgt]
      · simp only [transformMed, medRowOf, hst, parseIntOr_natCast]
        split <;> simp_all
      · simp only [transformMed, medRowOf, hmn, parseIntOr_natCast]
        rw [if_neg hmn0]
      · simp only [transformMed, medRowOf, hmx, parseIntOr_natCast]
        rw [if_neg hmx0]
      · simp only [transformMed, medRowOf, hpr, parseFloatOr_zero]
      · simp only [transformMed, medRowOf, hstr]
      · simp only [transformMed, medRowOf, hexp]
      · simp only [transformMed, medRowOf, hbat]
      · simp only [transformMed, medRowOf, hloc]

/-- Witness for C4 (amended): the spec's add-medicine scenario fields
(with `minStock = 5`) survive the remote round trip, and any medicine
round-trips locally. -/
theorem C4_roundtrip_amended_witness :
    ((addMedicineLocal sampleStore "id_2" "t3" c4good).2 ∈
        getMedicinesLocal (addMedicineLocal sampleStore "id_2" "t3"
          c4good).1 ∧
      (addMedicineLocal sampleStore "id_2" "t3" c4good).2.fields = c4good ∧
      (addMedicineLocal sampleStore "id_2" "t3" c4good).2.id = "id_2") ∧
    (∃ db2 t, remoteAddMedicine [] "id_3" "t4" c4good = .ok (db2, t) ∧
      ∃ e ∈ remoteGetMedicines db2,
        e.id = "id_3" ∧ e.name = "Test" ∧ e.category = "Pain Relief" ∧
        e.manufacturer = "Acme" ∧ e.current_stock = (10 : ℕ) ∧
        e.minimum_stock = (5 : ℕ) ∧ e.maximum_stock = (50 : ℕ) ∧
        e.unit_price = 9 ∧ e.strength = c4good.strength ∧
        e.expiry_date = c4good.expiryDate ∧
        e.batch_number = c4good.batchNumber ∧
        e.storage_location = c4good.location) :=
  ⟨C4_roundtrip_amended.1 sampleStore "id_2" "t3" c4good,
   C4_roundtrip_amended.2 [] "id_3" "t4" c4good "Test" "Pain Relief"
     "Acme" 10 5 50 9
     rfl (by decide) (by decide) rfl (by decide) (by decide)
     rfl (by decide) (by decide)
     (by norm_num [c4good]) (by norm_num [c4good]) (by norm_num)
     (by norm_num [c4good]) (by norm_num)
     rfl rfl rfl rfl rfl⟩

/-! ## C6: validator rejection rules -/

/-- C6: for every input field bag, `validateMedicine` is invalid whenever
`minStock >= maxStock` (both fields present), `validatePrescription` is
invalid whenever the medicines list is absent or empty, and
`validateEmployee` is invalid whenever the email does not match the email
pattern (an absent email reads as the empty string, which never matches). -/
theorem C6_validator_rejections :
    (∀ (parses inFuture : String → Bool) (d : MedicineData) (lo hi : ℚ),
        d.minStock = some lo → d.maxStock = some hi → lo ≥ hi →
        (validateMedicine parses inFuture d).isValid = false) ∧
    (∀ d : PrescriptionData, d.medicines = none ∨ d.medicines = some [] →
        (validatePrescription d).isValid = false) ∧
    (∀ (parses : String → Bool) (d : EmployeeData),
        validateEmail ((d.email).getD "") = false →
        (validateEmployee parses d).isValid = false) := by
  refine ⟨?_, ?_, ?_⟩
  · intro parses inFuture d lo hi hlo hhi hge
    simp only [validateMedicine]
    apply isEmpty_false_of_mem
      (a := "Maximum stock must be greater than minimum stock")
    simp only [List.mem_append, hlo, hhi]
    rw [if_pos hge]
    simp
  · intro d hd
    simp only [validatePrescription]
    apply isEmpty_false_of_mem (a := "At least one medicine must be prescribed")
    rcases hd with h | h <;> simp [h]
  · intro parses d he
    simp only [validateEmployee]
    apply isEmpty_false_of_mem (a := "Valid email address is required")
    have : (if strFalsy d.email = true ∨ ¬ validateEmail ((d.email).getD "") = true
        then ["Valid email address is required"] else [])
        = ["Valid email address is required"] := by
      rw [if_pos]
      right
      simp [he]
    simp only [List.mem_append, this]
    simp

/-- Witness for C6 at concrete inputs: a medicine bag with
`minStock = 50 ≥ maxStock = 5`, a prescription with an empty medicines
list, and an employee whose email `"not-an-email"` fails the pattern. -/
theorem C6_validator_rejections_witness :
    (validateMedicine (fun _ => true) (fun _ => true)
      { name := some "Paracetamol", category := some "Pain Relief",
        manufacturer := some "Acme", minStock := some 50,
        maxStock := some 5 }).isValid = false ∧
    (validatePrescription
      { patientName := some "Jane", doctorName := some "Dr. Smith",
        medicines := some [] }).isValid = false ∧
    (validateEmployee (fun _ => true)
      { name := some "Bob", email := some "not-an-email",
        role := some "cashier", department := some "sales" }).isValid = false := by
  refine ⟨?_, ?_, ?_⟩
  · exact C6_validator_rejections.1 (fun _ => true) (fun _ => true) _ 50 5
      rfl rfl (by norm_num)
  · exact C6_validator_rejections.2.1 _ (Or.inr rfl)
  · exact C6_validator_rejections.2.2 (fun _ => true) _ (by decide)

end Wellness
